import Mathlib

/-!
Shallow embedding of the receiver-node pipeline (`Nodo_edge-final.ino`).

Modelling conventions:
* C `float` values are modelled as `ℚ`.  The program only ever compares
  sensor values against constant thresholds and formats them with one
  decimal digit; no float arithmetic is performed, so the ordered-field
  structure of `ℚ` is a faithful abstraction of those comparisons.
* The raw ESP-NOW byte payload is abstracted by the records its bytes
  decode to under each fixed-size schema (`memcpy` into the struct always
  succeeds when the length matches, so both views always exist).
* FreeRTOS queues are lists (blocking `xQueueSend`/`xQueueReceive` with
  `portMAX_DELAY` always completes; capacity-induced waiting is not
  relevant to the verified claims).
* The SD card is a mounted-flag, a set of directories and a map from file
  paths to the list of appended lines.  `SD_MMC.exists` is only ever
  called on directory paths by this program and data files live only at
  `.../data.txt` paths, so directory membership models the existence test.
* `printf`/Arduino `String(v, 1)` one-decimal rendering is modelled by
  `fmtQ1` (fixed-point, round half up), abstracting the binary-float
  rounding of the C library for the exactly representable values used.
-/

/-- Field `float temp; float hum; int luz; int mq5;` of the receiver
(16 bytes on the wire). -/
structure dht_message_t where
  temp : ℚ
  hum : ℚ
  luz : ℤ
  mq5 : ℤ
deriving DecidableEq, Repr

/-- Field `float soil;` of the receiver (4 bytes on the wire). -/
structure soil_message_t where
  soil : ℚ
deriving DecidableEq, Repr

/-- `sizeof(soil_message_t)`: one 4-byte float. -/
def sizeof_soil_message_t : ℕ := 4

/-- `sizeof(dht_message_t)`: four 4-byte fields, no padding. -/
def sizeof_dht_message_t : ℕ := 16

/-- `uint8_t unifiedSenderMAC[] = {0x08, 0xD1, 0xF9, 0xEE, 0x4F, 0x2C}`. -/
def unifiedSenderMAC : List ℕ := [0x08, 0xD1, 0xF9, 0xEE, 0x4F, 0x2C]

/-- `uint8_t soilSenderMAC[] = {0xA0, 0xB7, 0x65, 0x1B, 0x18, 0x50}`. -/
def soilSenderMAC : List ℕ := [0xA0, 0xB7, 0x65, 0x1B, 0x18, 0x50]

/-- `#define TEMP_THRESHOLD 30.0` -/
def TEMP_THRESHOLD : ℚ := 30

/-- `#define HUM_THRESHOLD 80.0` -/
def HUM_THRESHOLD : ℚ := 80

/-- `#define SOIL_THRESHOLD_LOW 30.0` -/
def SOIL_THRESHOLD_LOW : ℚ := 30

/-- `#define SOIL_THRESHOLD_HIGH 70.0` -/
def SOIL_THRESHOLD_HIGH : ℚ := 70

/-- `#define LDR_THRESHOLD 700.0` -/
def LDR_THRESHOLD : ℚ := 700

/-- `#define MQ5_THRESHOLD 1500.0` -/
def MQ5_THRESHOLD : ℚ := 1500

/-- One-decimal fixed-point rendering of a rational, modelling
`printf("%.1f", v)` and Arduino `String(v, 1)`: the value rounded to
tenths (half up), written with one digit after the point.  The tenths
count `⌊10 q + 1/2⌋` is computed on the numerator and denominator
directly as `⌊(20 num + den) / (2 den)⌋`. -/
def fmtQ1 (q : ℚ) : String :=
  let n : ℤ := (20 * q.num + (q.den : ℤ)).fdiv (2 * (q.den : ℤ))
  (if n < 0 then "-" else "") ++ Nat.repr (n.natAbs / 10) ++ "." ++ Nat.repr (n.natAbs % 10)

/-- The abstract content of a raw ESP-NOW payload: the record its first
4 bytes decode to as `soil_message_t` and the record its first 16 bytes
decode to as `dht_message_t`.  `OnDataRecv` only reads the view whose
size equals the received length. -/
structure Payload where
  asSoil : soil_message_t
  asDht : dht_message_t
deriving DecidableEq, Repr

/-- Calendar wall-clock time, the result of a successful
`getLocalTime(&timeinfo)` (fields of `struct tm`, with the year and
month already in calendar form as `strftime` renders them). -/
structure Tm where
  year : ℕ
  month : ℕ
  day : ℕ
  hour : ℕ
  minute : ℕ
  second : ℕ
deriving DecidableEq, Repr

/-- Two-digit zero-padded decimal, as `strftime` renders `%m`, `%d`, `%H`. -/
def pad2 (n : ℕ) : String :=
  if n < 10 then "0" ++ Nat.repr n else Nat.repr n

/-- `strftime(datePath, …, "/%Y-%m-%d", &timeinfo)`. -/
def fmtDatePath (t : Tm) : String :=
  "/" ++ Nat.repr t.year ++ "-" ++ pad2 t.month ++ "-" ++ pad2 t.day

/-- `strftime(hourPath, …, "/%Y-%m-%d/%H", &timeinfo)`. -/
def fmtHourPath (t : Tm) : String :=
  fmtDatePath t ++ "/" ++ pad2 t.hour

/-- `strftime(filePath, …, "/%Y-%m-%d/%H/data.txt", &timeinfo)`. -/
def fmtFilePath (t : Tm) : String :=
  fmtHourPath t ++ "/data.txt"

/-- The formatted log line
`"Temp: %.1f°C, Hum: %.1f%%, Suelo: %.1f%%, Luz: %d, MQ5: %d\n"`
(the terminating newline is the line separator of the file model). -/
def formatLine (temp hum soil : ℚ) (luz mq5 : ℤ) : String :=
  "Temp: " ++ fmtQ1 temp ++ ("°C, Hum: ") ++ fmtQ1 hum ++ ("%, Suelo: ") ++
    fmtQ1 soil ++ ("%, Luz: ") ++ toString luz ++ (", MQ5: ") ++ toString mq5

/-- State of the SD_MMC volume: whether `SD_MMC.begin()` succeeded, the
directories that exist, and the lines so far appended to each file
(a path with no appended lines is an absent file). -/
structure SDState where
  mounted : Bool
  dirs : List String
  files : String → List String

/-- `SD_MMC.exists(p)` as used by this program: the program only queries
directory paths, and its files live only at `…/data.txt` paths. -/
def SDState.existsPath (sd : SDState) (p : String) : Bool :=
  sd.mounted && sd.dirs.contains p

/-- `SD_MMC.mkdir(p)`: creates the directory when the volume is mounted,
fails (changing nothing) otherwise. -/
def SDState.mkdir (sd : SDState) (p : String) : SDState :=
  if sd.mounted then { sd with dirs := sd.dirs ++ [p] } else sd

/-- `SD_MMC.open(p, FILE_APPEND)` followed by one `printf` and `close`:
appends one line when the volume is mounted, fails (changing nothing)
otherwise. -/
def SDState.appendLine (sd : SDState) (p : String) (line : String) : SDState :=
  if sd.mounted then
    { sd with files := fun q => if q = p then sd.files p ++ [line] else sd.files q }
  else sd

/-- `saveDataToSD(temp, hum, soil, luz, mq5)`.  The clock read performed
inside by `getLocalTime` is the explicit `now` argument: `none` models a
failed read (the function returns at once), `some t` a successful one. -/
def saveDataToSD (now : Option Tm) (temp hum soil : ℚ) (luz mq5 : ℤ)
    (sd : SDState) : SDState :=
  match now with
  | none => sd
  | some t =>
    let datePath := fmtDatePath t
    let hourPath := fmtHourPath t
    let filePath := fmtFilePath t
    let sd1 := if sd.existsPath datePath then sd else sd.mkdir datePath
    let sd2 := if sd1.existsPath hourPath then sd1 else sd1.mkdir hourPath
    sd2.appendLine filePath (formatLine temp hum soil luz mq5)

/-- The arguments of one `saveDataToSD` invocation (the persistence
request issued for one record). -/
structure PersistCall where
  temp : ℚ
  hum : ℚ
  soil : ℚ
  luz : ℤ
  mq5 : ℤ
deriving DecidableEq, Repr

/-- The shared mutable state of the receiver node: the three queues and
the SD volume. -/
structure EdgeState where
  dhtQueue : List dht_message_t
  soilQueue : List soil_message_t
  msgQueue : List String
  sd : SDState

/-- `OnDataRecv(info, incoming, len)`: the ESP-NOW receive callback.
Returns the updated state together with the trace of `saveDataToSD`
invocations the call performed.  `src_addr` is the 6-byte sender
address `info->src_addr`. -/
def OnDataRecv (now : Option Tm) (src_addr : List ℕ) (incoming : Payload)
    (len : ℕ) (st : EdgeState) : EdgeState × List PersistCall :=
  if src_addr = soilSenderMAC ∧ len = sizeof_soil_message_t then
    let s := incoming.asSoil
    let st1 := { st with soilQueue := st.soilQueue ++ [s] }
    let st2 := { st1 with sd := saveDataToSD now 0 0 s.soil 0 0 st1.sd }
    (st2, [⟨0, 0, s.soil, 0, 0⟩])
  else if src_addr = unifiedSenderMAC ∧ len = sizeof_dht_message_t then
    let d := incoming.asDht
    let st1 := { st with dhtQueue := st.dhtQueue ++ [d] }
    let st2 := { st1 with sd := saveDataToSD now d.temp d.hum 0 d.luz d.mq5 st1.sd }
    (st2, [⟨d.temp, d.hum, 0, d.luz, d.mq5⟩])
  else
    (st, [])

/-- `"⚠ Alta temperatura: " + String(d.temp, 1) + "°C\n"`. -/
def tempAlertLine (t : ℚ) : String :=
  "⚠ Alta temperatura: " ++ fmtQ1 t ++ ("°C\n")

/-- `"💧 Alta humedad: " + String(d.hum, 1) + "%\n"`. -/
def humAlertLine (h : ℚ) : String :=
  "💧 Alta humedad: " ++ fmtQ1 h ++ ("%\n")

/-- `"🌑 Luz baja: " + String(d.luz) + "\n"`. -/
def luzAlertLine (l : ℤ) : String :=
  "🌑 Luz baja: " ++ toString l ++ ("\n")

/-- `"🔥 Posible gas detectado: " + String(d.mq5) + "\n"`. -/
def mq5AlertLine (m : ℤ) : String :=
  "🔥 Posible gas detectado: " ++ toString m ++ ("\n")

/-- The `msg` string `DHTTask` composes for one dequeued record: the
four threshold conditionals, each appending its condition line. -/
def DHTAlertText (d : dht_message_t) : String :=
  (if d.temp > TEMP_THRESHOLD then tempAlertLine d.temp else "") ++
  (if d.hum > HUM_THRESHOLD then humAlertLine d.hum else "") ++
  (if (d.luz : ℚ) > LDR_THRESHOLD then luzAlertLine d.luz else "") ++
  (if (d.mq5 : ℚ) > MQ5_THRESHOLD then mq5AlertLine d.mq5 else "")

/-- The `msg.length()` guard of `DHTTask` deciding whether a buffer is
allocated and enqueued (`some` is the buffer's content copied by
`toCharArray`, `none` means no alert). -/
def DHTTaskAlert (d : dht_message_t) : Option String :=
  if (DHTAlertText d).length ≠ 0 then some (DHTAlertText d) else none

/-- `"🚨 Suelo muy seco, Bomba encendida: " + String(s.soil, 1) + "%\n"`. -/
def dryAlertLine (soil : ℚ) : String :=
  "🚨 Suelo muy seco, Bomba encendida: " ++ fmtQ1 soil ++ ("%\n")

/-- `"🌊 Suelo demasiado húmedo: " + String(s.soil, 1) + "%\n"`. -/
def wetAlertLine (soil : ℚ) : String :=
  "🌊 Suelo demasiado húmedo: " ++ fmtQ1 soil ++ ("%\n")

/-- The `msg` string `SoilTask` composes for one dequeued record: the
`if / else if` threshold branches. -/
def SoilAlertText (s : soil_message_t) : String :=
  if s.soil < SOIL_THRESHOLD_LOW then dryAlertLine s.soil
  else if s.soil > SOIL_THRESHOLD_HIGH then wetAlertLine s.soil
  else ""

/-- The `msg.length()` guard of `SoilTask` deciding whether a buffer is
allocated and enqueued. -/
def SoilTaskAlert (s : soil_message_t) : Option String :=
  if (SoilAlertText s).length ≠ 0 then some (SoilAlertText s) else none

/-- One iteration of the `DHTTask` loop body after `xQueueReceive`
yields record `d`: composes the alert and, when non-empty, enqueues the
buffer on `msgQueue`.  The second component is the trace of
`saveDataToSD` invocations the body performs — the task body contains
none, so the trace is always empty. -/
def DHTTaskStep (d : dht_message_t) (st : EdgeState) : EdgeState × List PersistCall :=
  match DHTTaskAlert d with
  | some m => ({ st with msgQueue := st.msgQueue ++ [m] }, [])
  | none => (st, [])

/-- One iteration of the `SoilTask` loop body after `xQueueReceive`
yields record `s`; the trace component is as in `DHTTaskStep` (the body
contains no `saveDataToSD` invocation). -/
def SoilTaskStep (s : soil_message_t) (st : EdgeState) : EdgeState × List PersistCall :=
  match SoilTaskAlert s with
  | some m => ({ st with msgQueue := st.msgQueue ++ [m] }, [])
  | none => (st, [])

/-- `#define CHAT_ID "XXXXXXXXXXXX"`. -/
def CHAT_ID : String := "XXXXXXXXXXXX"

/-- Observable effects of one `TelegramTask` loop iteration. -/
inductive TgEffect where
  | sendMessage (chatId : String) (text : String)
  | logLine (text : String)
  | free (text : String)
deriving DecidableEq, Repr

/-- One iteration of the `TelegramTask` loop body after `xQueueReceive`
yields buffer `recvBuffer`; `ok` is the result of `bot.sendMessage`.
The effect list records, in program order, the delivery attempt, the
serial log, and the `free(recvBuffer)`. -/
def TelegramTaskStep (recvBuffer : String) (ok : Bool) : List TgEffect :=
  [TgEffect.sendMessage CHAT_ID recvBuffer,
   TgEffect.logLine (if ok then "✅ Telegram enviado" else "❌ Error en Telegram"),
   TgEffect.free recvBuffer]

/-- The effect trace of running `TelegramTask` over a sequence of
dequeued buffers, each paired with its delivery outcome. -/
def TelegramTaskRun (xs : List (String × Bool)) : List TgEffect :=
  xs.flatMap (fun p => TelegramTaskStep p.1 p.2)

/-- The buffers released (`free`) in an effect trace, in order. -/
def releasedBuffers (es : List TgEffect) : List String :=
  es.filterMap (fun e => match e with | TgEffect.free t => some t | _ => none)

/-- The delivery attempts (`bot.sendMessage` payload texts) in an effect
trace, in order. -/
def attemptedTexts (es : List TgEffect) : List String :=
  es.filterMap (fun e => match e with | TgEffect.sendMessage _ t => some t | _ => none)

/-- Substring test on the underlying character lists (decidable and
directly executable). -/
def listInfixB (pat : List Char) : List Char → Bool
  | [] => pat.isEmpty
  | c :: t => pat.isPrefixOf (c :: t) || listInfixB pat t

/-- `containsB s pat` holds when `pat` occurs contiguously in `s`. -/
def containsB (s pat : String) : Bool :=
  listInfixB pat.data s.data

/-- A sample payload: its soil view decodes to 25.0 % moisture, its
environment view to 31.0 °C, 50 % humidity, light 0, gas 0. -/
def payload0 : Payload := ⟨⟨25⟩, ⟨31, 50, 0, 0⟩⟩

/-- A freshly mounted, empty SD volume. -/
def sdEmpty : SDState := ⟨true, [], fun _ => []⟩

/-- The receiver state right after `setup`: all queues empty, SD mounted. -/
def edgeState0 : EdgeState := ⟨[], [], [], sdEmpty⟩

/-- The wall-clock time 2024-03-01 14:22:00. -/
def tm0 : Tm := ⟨2024, 3, 1, 14, 22, 0⟩

/-- The wall-clock time 2024-03-01 14:30:00 (later, same hour). -/
def tm1 : Tm := ⟨2024, 3, 1, 14, 30, 0⟩

/-- Two times label the same date/hour partition. -/
def sameHour (t1 t2 : Tm) : Prop :=
  t1.year = t2.year ∧ t1.month = t2.month ∧ t1.day = t2.day ∧ t1.hour = t2.hour

instance (t1 t2 : Tm) : Decidable (sameHour t1 t2) := by
  unfold sameHour; infer_instance

/-- The second time is strictly later within the same hour. -/
def laterInHour (t1 t2 : Tm) : Prop :=
  sameHour t1 t2 ∧ 60 * t1.minute + t1.second < 60 * t2.minute + t2.second

instance (t1 t2 : Tm) : Decidable (laterInHour t1 t2) := by
  unfold laterInHour; infer_instance

lemma dryAlertLine_length_pos (x : ℚ) : 0 < (dryAlertLine x).length := by
  simp only [dryAlertLine, String.length_append]
  have h : 0 < "🚨 Suelo muy seco, Bomba encendida: ".length := by decide
  omega

lemma wetAlertLine_length_pos (x : ℚ) : 0 < (wetAlertLine x).length := by
  simp only [wetAlertLine, String.length_append]
  have h : 0 < "🌊 Suelo demasiado húmedo: ".length := by decide
  omega

lemma tempAlertLine_length_pos (x : ℚ) : 0 < (tempAlertLine x).length := by
  simp only [tempAlertLine, String.length_append]
  have h : 0 < "⚠ Alta temperatura: ".length := by decide
  omega

lemma humAlertLine_length_pos (x : ℚ) : 0 < (humAlertLine x).length := by
  simp only [humAlertLine, String.length_append]
  have h : 0 < "💧 Alta humedad: ".length := by decide
  omega

lemma luzAlertLine_length_pos (x : ℤ) : 0 < (luzAlertLine x).length := by
  simp only [luzAlertLine, String.length_append]
  have h : 0 < "🌑 Luz baja: ".length := by decide
  omega

lemma mq5AlertLine_length_pos (x : ℤ) : 0 < (mq5AlertLine x).length := by
  simp only [mq5AlertLine, String.length_append]
  have h : 0 < "🔥 Posible gas detectado: ".length := by decide
  omega

lemma dryAlertLine_ne_wetAlertLine (x y : ℚ) : dryAlertLine x ≠ wetAlertLine y := by
  intro h
  have h2 : (dryAlertLine x).data.head? = (wetAlertLine y).data.head? := by rw [h]
  rw [dryAlertLine, wetAlertLine, String.data_append, String.data_append,
    String.data_append, String.data_append] at h2
  simp at h2

/-- A conditional condition line is empty exactly when its predicate did
not fire. -/
lemma ite_line_length (P : Prop) [Decidable P] (line : String)
    (hl : 0 < line.length) : ((if P then line else "").length = 0) ↔ ¬P := by
  by_cases hP : P
  · simp [hP]; omega
  · simp [hP]

lemma DHTAlertText_length_eq_zero (d : dht_message_t) :
    (DHTAlertText d).length = 0 ↔
      d.temp ≤ TEMP_THRESHOLD ∧ d.hum ≤ HUM_THRESHOLD
        ∧ (d.luz : ℚ) ≤ LDR_THRESHOLD ∧ (d.mq5 : ℚ) ≤ MQ5_THRESHOLD := by
  have e1 := ite_line_length (d.temp > TEMP_THRESHOLD) (tempAlertLine d.temp)
    (tempAlertLine_length_pos d.temp)
  have e2 := ite_line_length (d.hum > HUM_THRESHOLD) (humAlertLine d.hum)
    (humAlertLine_length_pos d.hum)
  have e3 := ite_line_length ((d.luz : ℚ) > LDR_THRESHOLD) (luzAlertLine d.luz)
    (luzAlertLine_length_pos d.luz)
  have e4 := ite_line_length ((d.mq5 : ℚ) > MQ5_THRESHOLD) (mq5AlertLine d.mq5)
    (mq5AlertLine_length_pos d.mq5)
  simp only [DHTAlertText, String.length_append, Nat.add_eq_zero, e1, e2, e3, e4,
    gt_iff_lt, not_lt, and_assoc]

lemma DHTTaskAlert_some_pos (d : dht_message_t) (m : String)
    (h : DHTTaskAlert d = some m) : 0 < m.length := by
  unfold DHTTaskAlert at h
  by_cases hg : (DHTAlertText d).length ≠ 0
  · rw [if_pos hg] at h
    cases h
    omega
  · rw [if_neg hg] at h
    cases h

lemma SoilTaskAlert_some_pos (s : soil_message_t) (m : String)
    (h : SoilTaskAlert s = some m) : 0 < m.length := by
  unfold SoilTaskAlert at h
  by_cases hg : (SoilAlertText s).length ≠ 0
  · rw [if_pos hg] at h
    cases h
    omega
  · rw [if_neg hg] at h
    cases h

/-- C1: a message from the registered soil sender with a 4-byte payload
is decoded as `soil_message_t` and enqueued on `soilQueue` only, and a
message from the registered unified (environment) sender with a 16-byte
payload is decoded as `dht_message_t` and enqueued on `dhtQueue` only;
in each case the other class's queue is untouched. -/
theorem registered_sender_enqueues_own_class_only
    (now : Option Tm) (pl : Payload) (st : EdgeState) :
    ((OnDataRecv now soilSenderMAC pl sizeof_soil_message_t st).1.soilQueue
        = st.soilQueue ++ [pl.asSoil]
      ∧ (OnDataRecv now soilSenderMAC pl sizeof_soil_message_t st).1.dhtQueue
        = st.dhtQueue)
    ∧ ((OnDataRecv now unifiedSenderMAC pl sizeof_dht_message_t st).1.dhtQueue
        = st.dhtQueue ++ [pl.asDht]
      ∧ (OnDataRecv now unifiedSenderMAC pl sizeof_dht_message_t st).1.soilQueue
        = st.soilQueue) :=
  ⟨⟨rfl, rfl⟩, rfl, rfl⟩

/-- C2: a message whose sender identity matches no registered sender, or
a registered sender with a wrong payload length, changes nothing: no
queue is touched, the SD state is untouched, and no `saveDataToSD`
invocation happens. -/
theorem unmatched_message_drops
    (now : Option Tm) (src : List ℕ) (pl : Payload) (len : ℕ) (st : EdgeState)
    (h1 : ¬(src = soilSenderMAC ∧ len = sizeof_soil_message_t))
    (h2 : ¬(src = unifiedSenderMAC ∧ len = sizeof_dht_message_t)) :
    OnDataRecv now src pl len st = (st, []) := by
  unfold OnDataRecv
  rw [if_neg h1, if_neg h2]

/-- C2 witness: a message from the registered soil sender carrying a
16-byte payload (the wrong length for its schema) is dropped. -/
theorem unmatched_message_drops_witness :
    OnDataRecv none soilSenderMAC payload0 sizeof_dht_message_t edgeState0
      = (edgeState0, []) :=
  unmatched_message_drops none soilSenderMAC payload0 sizeof_dht_message_t
    edgeState0 (by decide) (by decide)

/-- C3: the soil evaluator's thresholds are mutually exclusive branches:
below 30.0 the alert is the dry-soil/pump line (and can never equal a
waterlogged line), above 70.0 it is the waterlogged line (and can never
equal a dry line), and between the thresholds no alert is produced and
nothing is enqueued on the alert queue. -/
theorem soil_thresholds_mutually_exclusive (s : soil_message_t) :
    (s.soil < SOIL_THRESHOLD_LOW →
      SoilTaskAlert s = some (dryAlertLine s.soil)
        ∧ ∀ y, dryAlertLine s.soil ≠ wetAlertLine y)
    ∧ (s.soil > SOIL_THRESHOLD_HIGH →
      SoilTaskAlert s = some (wetAlertLine s.soil)
        ∧ ∀ x, wetAlertLine s.soil ≠ dryAlertLine x)
    ∧ (SOIL_THRESHOLD_LOW ≤ s.soil → s.soil ≤ SOIL_THRESHOLD_HIGH →
      SoilTaskAlert s = none ∧ ∀ st, SoilTaskStep s st = (st, [])) := by
  refine ⟨fun h => ⟨?_, fun y => dryAlertLine_ne_wetAlertLine s.soil y⟩,
    fun h => ⟨?_, fun x => (dryAlertLine_ne_wetAlertLine x s.soil).symm⟩,
    fun h1 h2 => ?_⟩
  · have ht : SoilAlertText s = dryAlertLine s.soil := by
      rw [SoilAlertText, if_pos h]
    rw [SoilTaskAlert, ht, if_pos (dryAlertLine_length_pos s.soil).ne']
  · have hn : ¬s.soil < SOIL_THRESHOLD_LOW := by
      rw [not_lt]
      calc SOIL_THRESHOLD_LOW ≤ SOIL_THRESHOLD_HIGH := by norm_num [SOIL_THRESHOLD_LOW, SOIL_THRESHOLD_HIGH]
        _ ≤ s.soil := le_of_lt h
    have ht : SoilAlertText s = wetAlertLine s.soil := by
      rw [SoilAlertText, if_neg hn, if_pos h]
    rw [SoilTaskAlert, ht, if_pos (wetAlertLine_length_pos s.soil).ne']
  · have ht : SoilAlertText s = "" := by
      rw [SoilAlertText, if_neg (not_lt.mpr h1), if_neg (not_lt.mpr h2)]
    have ha : SoilTaskAlert s = none := by
      rw [SoilTaskAlert, ht]
      simp
    refine ⟨ha, fun st => ?_⟩
    rw [SoilTaskStep, ha]

/-- C3 witness: moisture 25.0 yields the dry-soil/pump alert, 75.0 the
waterlogged alert, 50.0 no alert. -/
theorem soil_thresholds_mutually_exclusive_witness :
    SoilTaskAlert ⟨25⟩ = some (dryAlertLine 25)
    ∧ SoilTaskAlert ⟨75⟩ = some (wetAlertLine 75)
    ∧ SoilTaskAlert ⟨50⟩ = none :=
  ⟨((soil_thresholds_mutually_exclusive ⟨25⟩).1 (by decide)).1,
   ((soil_thresholds_mutually_exclusive ⟨75⟩).2.1 (by decide)).1,
   ((soil_thresholds_mutually_exclusive ⟨50⟩).2.2 (by decide) (by decide)).1⟩

/-- C4: the environment evaluator applies four independent threshold
predicates; no alert is produced exactly when none fires, any produced
alert is the in-order concatenation of the condition lines of exactly
the fired predicates (each line newline-terminated), a fired
temperature predicate puts its line first; and the record
temperature 31.0, humidity 50, light 0, gas 0 produces an alert that is
the high-temperature line and contains no other condition line. -/
theorem env_thresholds_independent (d : dht_message_t) :
    (DHTTaskAlert d = none ↔
      d.temp ≤ TEMP_THRESHOLD ∧ d.hum ≤ HUM_THRESHOLD
        ∧ (d.luz : ℚ) ≤ LDR_THRESHOLD ∧ (d.mq5 : ℚ) ≤ MQ5_THRESHOLD)
    ∧ (∀ m, DHTTaskAlert d = some m →
      m = (if d.temp > TEMP_THRESHOLD then tempAlertLine d.temp else "") ++
          (if d.hum > HUM_THRESHOLD then humAlertLine d.hum else "") ++
          (if (d.luz : ℚ) > LDR_THRESHOLD then luzAlertLine d.luz else "") ++
          (if (d.mq5 : ℚ) > MQ5_THRESHOLD then mq5AlertLine d.mq5 else ""))
    ∧ (d.temp > TEMP_THRESHOLD → ∃ r, DHTAlertText d = tempAlertLine d.temp ++ r)
    ∧ DHTTaskAlert ⟨31, 50, 0, 0⟩ = some (tempAlertLine 31)
    ∧ containsB (tempAlertLine 31) ("Alta temperatura") = true
    ∧ containsB (tempAlertLine 31) ("Alta humedad") = false
    ∧ containsB (tempAlertLine 31) ("Luz baja") = false
    ∧ containsB (tempAlertLine 31) ("gas detectado") = false := by
  refine ⟨?_, ?_, ?_, by decide, by decide, by decide, by decide, by decide⟩
  · rw [DHTTaskAlert]
    constructor
    · intro h
      rw [← DHTAlertText_length_eq_zero]
      by_cases hg : (DHTAlertText d).length ≠ 0
      · rw [if_pos hg] at h
        cases h
      · omega
    · intro h
      rw [← DHTAlertText_length_eq_zero] at h
      rw [if_neg (by omega)]
  · intro m h
    rw [DHTTaskAlert] at h
    by_cases hg : (DHTAlertText d).length ≠ 0
    · rw [if_pos hg] at h
      cases h
      rfl
    · rw [if_neg hg] at h
      cases h
  · intro h
    exact ⟨_, by rw [DHTAlertText, if_pos h, String.append_assoc, String.append_assoc]⟩

/-- C4 witness: the theorem instantiated at the record with temperature
31.0, humidity 50, light 0, gas 0: the alert is exactly the
high-temperature line. -/
theorem env_thresholds_independent_witness :
    DHTTaskAlert ⟨31, 50, 0, 0⟩ = some (tempAlertLine 31)
    ∧ tempAlertLine 31
        = (if (31 : ℚ) > TEMP_THRESHOLD then tempAlertLine 31 else "") ++
          (if (50 : ℚ) > HUM_THRESHOLD then humAlertLine 50 else "") ++
          (if ((0 : ℤ) : ℚ) > LDR_THRESHOLD then luzAlertLine 0 else "") ++
          (if ((0 : ℤ) : ℚ) > MQ5_THRESHOLD then mq5AlertLine 0 else "") :=
  ⟨(env_thresholds_independent ⟨31, 50, 0, 0⟩).2.2.2.1,
   (env_thresholds_independent ⟨31, 50, 0, 0⟩).2.1 (tempAlertLine 31) (by decide)⟩

/-- C6 counterexample: the evaluator tasks, handed a dequeued record
(one that even fires an alert predicate), issue no persistence request
at all — their `saveDataToSD` invocation trace is empty, contradicting
the claim that each evaluator always issues a persistence request for
every consumed record. -/
theorem evaluator_no_persist_counterexample :
    (DHTTaskStep ⟨31, 50, 0, 0⟩ edgeState0).2 = []
    ∧ (SoilTaskStep ⟨25⟩ edgeState0).2 = [] := by
  constructor <;> rfl

/-- C6 amended: persistence is requested by the receive callback, not by
the evaluator tasks: for every accepted message `OnDataRecv` issues
exactly one persistence request carrying the full record (alongside the
enqueue, independently of whether any alert predicate later fires),
while the evaluator loop bodies issue none. -/
theorem persistence_issued_by_receiver_not_evaluators
    (now : Option Tm) (pl : Payload) (st : EdgeState) :
    (OnDataRecv now soilSenderMAC pl sizeof_soil_message_t st).2
        = [⟨0, 0, pl.asSoil.soil, 0, 0⟩]
    ∧ (OnDataRecv now unifiedSenderMAC pl sizeof_dht_message_t st).2
        = [⟨pl.asDht.temp, pl.asDht.hum, 0, pl.asDht.luz, pl.asDht.mq5⟩]
    ∧ (∀ d st2, (DHTTaskStep d st2).2 = [])
    ∧ (∀ s st2, (SoilTaskStep s st2).2 = []) := by
  refine ⟨rfl, rfl, fun d st2 => ?_, fun s st2 => ?_⟩
  · rw [DHTTaskStep]
    cases DHTTaskAlert d <;> rfl
  · rw [SoilTaskStep]
    cases SoilTaskAlert s <;> rfl

/-- C7: when no wall-clock time can be obtained, `saveDataToSD` returns
at once and the storage state is completely unchanged — no directory
created, no file opened or appended, nothing buffered. -/
theorem persist_skipped_without_time (temp hum soil : ℚ) (luz mq5 : ℤ)
    (sd : SDState) :
    saveDataToSD none temp hum soil luz mq5 sd = sd :=
  rfl

/-- C8: across any sequence of dequeued alert buffers with arbitrary
delivery outcomes, the dispatcher attempts delivery of every dequeued
buffer and releases every dequeued buffer exactly once, in order — no
buffer is leaked and none is released twice, on success and failure
paths alike. -/
theorem dispatcher_releases_each_buffer_once (xs : List (String × Bool)) :
    releasedBuffers (TelegramTaskRun xs) = xs.map Prod.fst
    ∧ attemptedTexts (TelegramTaskRun xs) = xs.map Prod.fst := by
  induction xs with
  | nil => exact ⟨rfl, rfl⟩
  | cons p t ih =>
    obtain ⟨ih1, ih2⟩ := ih
    simp only [TelegramTaskRun, releasedBuffers] at ih1
    simp only [TelegramTaskRun, attemptedTexts] at ih2
    constructor
    · simp only [TelegramTaskRun, List.flatMap_cons, releasedBuffers,
        List.filterMap_append, ih1]
      rfl
    · simp only [TelegramTaskRun, List.flatMap_cons, attemptedTexts,
        List.filterMap_append, ih2]
      rfl

/-- C9: every buffer the evaluator tasks ever enqueue on the shared
alert queue has non-empty text: one step of either task either leaves
the alert queue unchanged or appends a single buffer of positive
length. -/
theorem alert_buffers_nonempty (d : dht_message_t) (s : soil_message_t)
    (st st2 : EdgeState) :
    ((DHTTaskStep d st).1.msgQueue = st.msgQueue
      ∨ ∃ m, 0 < m.length ∧ (DHTTaskStep d st).1.msgQueue = st.msgQueue ++ [m])
    ∧ ((SoilTaskStep s st2).1.msgQueue = st2.msgQueue
      ∨ ∃ m, 0 < m.length ∧ (SoilTaskStep s st2).1.msgQueue = st2.msgQueue ++ [m]) := by
  constructor
  · rw [DHTTaskStep]
    cases h : DHTTaskAlert d with
    | none => exact Or.inl rfl
    | some m => exact Or.inr ⟨m, DHTTaskAlert_some_pos d m h, rfl⟩
  · rw [SoilTaskStep]
    cases h : SoilTaskAlert s with
    | none => exact Or.inl rfl
    | some m => exact Or.inr ⟨m, SoilTaskAlert_some_pos s m h, rfl⟩

lemma SDState.mkdir_mounted (sd : SDState) (p : String) :
    (sd.mkdir p).mounted = sd.mounted := by
  rw [SDState.mkdir]; split <;> rfl

lemma SDState.mkdir_files (sd : SDState) (p : String) :
    (sd.mkdir p).files = sd.files := by
  rw [SDState.mkdir]; split <;> rfl

lemma SDState.mkdir_dirs (sd : SDState) (p : String) (hm : sd.mounted = true) :
    (sd.mkdir p).dirs = sd.dirs ++ [p] := by
  rw [SDState.mkdir, if_pos hm]

lemma SDState.appendLine_mounted (sd : SDState) (p line : String) :
    (sd.appendLine p line).mounted = sd.mounted := by
  rw [SDState.appendLine]; split <;> rfl

lemma SDState.appendLine_dirs (sd : SDState) (p line : String) :
    (sd.appendLine p line).dirs = sd.dirs := by
  rw [SDState.appendLine]; split <;> rfl

lemma SDState.appendLine_files_self (sd : SDState) (p line : String)
    (hm : sd.mounted = true) :
    (sd.appendLine p line).files p = sd.files p ++ [line] := by
  rw [SDState.appendLine, if_pos hm]; simp

lemma SDState.appendLine_files_other (sd : SDState) (p line q : String)
    (hq : q ≠ p) : (sd.appendLine p line).files q = sd.files q := by
  rw [SDState.appendLine]
  split
  · simp [hq]
  · rfl

/-- Behaviour of one `saveDataToSD` call with a valid time on a mounted
volume: mountedness is preserved, exactly one formatted line is appended
to the file at the derived partition path, no other file changes, both
directory levels exist afterwards, and when both already existed the
directory set is unchanged. -/
lemma saveDataToSD_some_spec (t : Tm) (temp hum soil : ℚ) (luz mq5 : ℤ)
    (sd : SDState) (hm : sd.mounted = true) :
    (saveDataToSD (some t) temp hum soil luz mq5 sd).mounted = true
    ∧ (saveDataToSD (some t) temp hum soil luz mq5 sd).files (fmtFilePath t)
        = sd.files (fmtFilePath t) ++ [formatLine temp hum soil luz mq5]
    ∧ (∀ p, p ≠ fmtFilePath t →
        (saveDataToSD (some t) temp hum soil luz mq5 sd).files p = sd.files p)
    ∧ fmtDatePath t ∈ (saveDataToSD (some t) temp hum soil luz mq5 sd).dirs
    ∧ fmtHourPath t ∈ (saveDataToSD (some t) temp hum soil luz mq5 sd).dirs
    ∧ (fmtDatePath t ∈ sd.dirs → fmtHourPath t ∈ sd.dirs →
        (saveDataToSD (some t) temp hum soil luz mq5 sd).dirs = sd.dirs) := by
  simp only [saveDataToSD]
  split
  next hex1 =>
    rw [SDState.existsPath, hm, Bool.true_and] at hex1
    split
    next hex2 =>
      rw [SDState.existsPath, hm, Bool.true_and] at hex2
      refine ⟨?_, ?_, ?_, ?_, ?_, fun _ _ => ?_⟩
      · rw [SDState.appendLine_mounted]; exact hm
      · exact SDState.appendLine_files_self _ _ _ hm
      · intro p hp
        exact SDState.appendLine_files_other _ _ _ p hp
      · rw [SDState.appendLine_dirs]; exact List.elem_iff.mp hex1
      · rw [SDState.appendLine_dirs]; exact List.elem_iff.mp hex2
      · rw [SDState.appendLine_dirs]
    next hex2 =>
      rw [SDState.existsPath, hm, Bool.true_and] at hex2
      have hm2 : (sd.mkdir (fmtHourPath t)).mounted = true := by
        rw [SDState.mkdir_mounted]; exact hm
      have hd2 := SDState.mkdir_dirs sd (fmtHourPath t) hm
      have hf2 := SDState.mkdir_files sd (fmtHourPath t)
      refine ⟨?_, ?_, ?_, ?_, ?_, fun _ hhp => ?_⟩
      · rw [SDState.appendLine_mounted]; exact hm2
      · rw [SDState.appendLine_files_self _ _ _ hm2, hf2]
      · intro p hp
        rw [SDState.appendLine_files_other _ _ _ p hp, hf2]
      · rw [SDState.appendLine_dirs, hd2]
        exact List.mem_append_left _ (List.elem_iff.mp hex1)
      · rw [SDState.appendLine_dirs, hd2]
        exact List.mem_append_right _ (List.mem_singleton_self _)
      · exact absurd (List.elem_iff.mpr hhp) hex2
  next hex1 =>
    rw [SDState.existsPath, hm, Bool.true_and] at hex1
    have hm1 : (sd.mkdir (fmtDatePath t)).mounted = true := by
      rw [SDState.mkdir_mounted]; exact hm
    have hd1 := SDState.mkdir_dirs sd (fmtDatePath t) hm
    have hf1 := SDState.mkdir_files sd (fmtDatePath t)
    split
    next hex2 =>
      rw [SDState.existsPath, hm1, Bool.true_and, hd1] at hex2
      refine ⟨?_, ?_, ?_, ?_, ?_, fun hdp _ => ?_⟩
      · rw [SDState.appendLine_mounted]; exact hm1
      · rw [SDState.appendLine_files_self _ _ _ hm1, hf1]
      · intro p hp
        rw [SDState.appendLine_files_other _ _ _ p hp, hf1]
      · rw [SDState.appendLine_dirs, hd1]
        exact List.mem_append_right _ (List.mem_singleton_self _)
      · rw [SDState.appendLine_dirs, hd1]
        exact List.elem_iff.mp hex2
      · exact absurd (List.elem_iff.mpr hdp) hex1
    next hex2 =>
      have hm2 : ((sd.mkdir (fmtDatePath t)).mkdir (fmtHourPath t)).mounted = true := by
        rw [SDState.mkdir_mounted]; exact hm1
      have hd2 := SDState.mkdir_dirs (sd.mkdir (fmtDatePath t)) (fmtHourPath t) hm1
      have hf2 := SDState.mkdir_files (sd.mkdir (fmtDatePath t)) (fmtHourPath t)
      refine ⟨?_, ?_, ?_, ?_, ?_, fun hdp _ => ?_⟩
      · rw [SDState.appendLine_mounted]; exact hm2
      · rw [SDState.appendLine_files_self _ _ _ hm2, hf2, hf1]
      · intro p hp
        rw [SDState.appendLine_files_other _ _ _ p hp, hf2, hf1]
      · rw [SDState.appendLine_dirs, hd2, hd1]
        exact List.mem_append_left _ (List.mem_append_right _ (List.mem_singleton_self _))
      · rw [SDState.appendLine_dirs, hd2]
        exact List.mem_append_right _ (List.mem_singleton_self _)
      · exact absurd (List.elem_iff.mpr hdp) hex1

/-- C5 counterexample: with the wall-clock time 2024-03-01 14:22:00 and
a mounted empty volume, the single appended line lands in
`/2024-03-01/14/data.txt`, and the path `/2024-03-01/14/data` named by
the claim receives nothing. -/
theorem persist_path_counterexample :
    (saveDataToSD (some tm0) 0 0 25 0 0 sdEmpty).files ("/2024-03-01/14/data") = []
    ∧ (saveDataToSD (some tm0) 0 0 25 0 0 sdEmpty).files ("/2024-03-01/14/data.txt")
        = [formatLine 0 0 25 0 0]
    ∧ fmtFilePath tm0 = "/2024-03-01/14/data.txt" :=
  ⟨rfl, rfl, by decide⟩

/-- C5 (amended: the file component of the partition path is `data.txt`,
not `data`): `saveDataToSD` with a valid timestamp on a mounted volume
derives the partition path `/YYYY-MM-DD/HH/data.txt`, creates the
missing date- and hour-level directories idempotently, appends exactly
one formatted line to that file, and a second call with a later
timestamp in the same hour appends a second line to the same file, in
call order. -/
theorem persist_partitioned_append (t : Tm) (c : PersistCall) (sd : SDState)
    (hm : sd.mounted = true) :
    fmtFilePath t = fmtDatePath t ++ "/" ++ pad2 t.hour ++ "/data.txt"
    ∧ (saveDataToSD (some t) c.temp c.hum c.soil c.luz c.mq5 sd).files (fmtFilePath t)
        = sd.files (fmtFilePath t)
          ++ [formatLine c.temp c.hum c.soil c.luz c.mq5]
    ∧ fmtDatePath t ∈ (saveDataToSD (some t) c.temp c.hum c.soil c.luz c.mq5 sd).dirs
    ∧ fmtHourPath t ∈ (saveDataToSD (some t) c.temp c.hum c.soil c.luz c.mq5 sd).dirs
    ∧ (fmtDatePath t ∈ sd.dirs → fmtHourPath t ∈ sd.dirs →
        (saveDataToSD (some t) c.temp c.hum c.soil c.luz c.mq5 sd).dirs = sd.dirs)
    ∧ (∀ (t2 : Tm) (c2 : PersistCall), laterInHour t t2 →
        (saveDataToSD (some t2) c2.temp c2.hum c2.soil c2.luz c2.mq5
            (saveDataToSD (some t) c.temp c.hum c.soil c.luz c.mq5 sd)).files
            (fmtFilePath t)
          = sd.files (fmtFilePath t)
            ++ [formatLine c.temp c.hum c.soil c.luz c.mq5,
                formatLine c2.temp c2.hum c2.soil c2.luz c2.mq5]) := by
  obtain ⟨hmo1, hfs1, hfo1, hdp1, hhp1, hid1⟩ :=
    saveDataToSD_some_spec t c.temp c.hum c.soil c.luz c.mq5 sd hm
  refine ⟨rfl, hfs1, hdp1, hhp1, hid1, fun t2 c2 hl => ?_⟩
  obtain ⟨⟨hy, hmon, hd, hh⟩, _⟩ := hl
  have hdate : fmtDatePath t2 = fmtDatePath t := by
    rw [fmtDatePath, fmtDatePath, ← hy, ← hmon, ← hd]
  have hfile : fmtFilePath t2 = fmtFilePath t := by
    rw [fmtFilePath, fmtFilePath, fmtHourPath, fmtHourPath, hdate, ← hh]
  obtain ⟨_, hfs2, _, _, _, _⟩ :=
    saveDataToSD_some_spec t2 c2.temp c2.hum c2.soil c2.luz c2.mq5
      (saveDataToSD (some t) c.temp c.hum c.soil c.luz c.mq5 sd) hmo1
  rw [hfile] at hfs2
  rw [hfs2, hfs1, List.append_assoc]
  rfl

/-- C5 witness: the amended theorem at time 2024-03-01 14:22:00 on a
mounted empty volume, with the later same-hour time 14:30:00. -/
theorem persist_partitioned_append_witness :
    (saveDataToSD (some tm0) 0 0 25 0 0 sdEmpty).files (fmtFilePath tm0)
      = sdEmpty.files (fmtFilePath tm0) ++ [formatLine 0 0 25 0 0]
    ∧ (saveDataToSD (some tm1) 0 0 60 0 0
          (saveDataToSD (some tm0) 0 0 25 0 0 sdEmpty)).files (fmtFilePath tm0)
      = sdEmpty.files (fmtFilePath tm0)
        ++ [formatLine 0 0 25 0 0, formatLine 0 0 60 0 0] :=
  ⟨(persist_partitioned_append tm0 ⟨0, 0, 25, 0, 0⟩ sdEmpty rfl).2.1,
   (persist_partitioned_append tm0 ⟨0, 0, 25, 0, 0⟩ sdEmpty rfl).2.2.2.2.2
     tm1 ⟨0, 0, 60, 0, 0⟩ (by decide)⟩

/-- C10: every persisted line has the same five-field format: a soil
record is persisted with the temperature, humidity, light and gas
fields written as 0 and its own moisture value, an environment record
with the soil field written as 0 and its own four values, and every
write on a mounted volume appends the one five-field `formatLine`
rendering of the requested values. -/
theorem persisted_line_uniform_fields (now : Option Tm) (pl : Payload)
    (len : ℕ) (st : EdgeState) :
    (∀ c ∈ (OnDataRecv now soilSenderMAC pl len st).2,
      c.temp = 0 ∧ c.hum = 0 ∧ c.luz = 0 ∧ c.mq5 = 0 ∧ c.soil = pl.asSoil.soil)
    ∧ (∀ c ∈ (OnDataRecv now unifiedSenderMAC pl len st).2,
      c.soil = 0 ∧ c.temp = pl.asDht.temp ∧ c.hum = pl.asDht.hum
        ∧ c.luz = pl.asDht.luz ∧ c.mq5 = pl.asDht.mq5)
    ∧ (∀ t temp hum soil luz mq5 sd, sd.mounted = true →
        (saveDataToSD (some t) temp hum soil luz mq5 sd).files (fmtFilePath t)
          = sd.files (fmtFilePath t) ++ [formatLine temp hum soil luz mq5]) := by
  refine ⟨?_, ?_, fun t temp hum soil luz mq5 sd hm =>
    (saveDataToSD_some_spec t temp hum soil luz mq5 sd hm).2.1⟩
  · intro c hc
    rw [OnDataRecv] at hc
    by_cases hlen : len = sizeof_soil_message_t
    · rw [if_pos ⟨rfl, hlen⟩] at hc
      rw [List.mem_singleton] at hc
      subst hc
      exact ⟨rfl, rfl, rfl, rfl, rfl⟩
    · rw [if_neg (fun hand => hlen hand.2), if_neg (fun hand => ?_)] at hc
      · cases hc
      · exact absurd hand.1 (by decide)
  · intro c hc
    rw [OnDataRecv] at hc
    by_cases hlen : len = sizeof_dht_message_t
    · rw [if_neg (fun hand => ?_), if_pos ⟨rfl, hlen⟩] at hc
      · rw [List.mem_singleton] at hc
        subst hc
        exact ⟨rfl, rfl, rfl, rfl, rfl⟩
      · exact absurd hand.1 (by decide)
    · rw [if_neg (fun hand => ?_), if_neg (fun hand => hlen hand.2)] at hc
      · cases hc
      · exact absurd hand.1 (by decide)

/-- C10 witness: the theorem instantiated at a soil message carrying
25.0 % moisture and at a concrete write of its persisted record. -/
theorem persisted_line_uniform_fields_witness :
    ((⟨0, 0, 25, 0, 0⟩ : PersistCall).temp = 0
      ∧ (⟨0, 0, 25, 0, 0⟩ : PersistCall).hum = 0
      ∧ (⟨0, 0, 25, 0, 0⟩ : PersistCall).luz = 0
      ∧ (⟨0, 0, 25, 0, 0⟩ : PersistCall).mq5 = 0
      ∧ (⟨0, 0, 25, 0, 0⟩ : PersistCall).soil = payload0.asSoil.soil)
    ∧ (saveDataToSD (some tm0) 0 0 25 0 0 sdEmpty).files (fmtFilePath tm0)
        = sdEmpty.files (fmtFilePath tm0) ++ [formatLine 0 0 25 0 0] :=
  ⟨(persisted_line_uniform_fields none payload0 sizeof_soil_message_t edgeState0).1
      ⟨0, 0, 25, 0, 0⟩ (by decide),
   (persisted_line_uniform_fields none payload0 sizeof_soil_message_t edgeState0).2.2
      tm0 0 0 25 0 0 sdEmpty rfl⟩
